import Mathlib

/-!
Verification development for the retail sales forecasting service
(`src/data_processing.py`, `api_service.py`).

Shallow embedding conventions:
* A raw transaction row carries an order date, a sales amount (modelled as a
  rational number), a category and a region.
* A pandas `Series` resampled at month-end frequency is modelled as a list of
  `(month index, total)` pairs, where the month index counts calendar months
  (`year * 12 + (month - 1)`); the month-end timestamp of an index entry is
  recovered by `monthEndDate`.
* `NaN` cells produced by `shift` are modelled as `Option` values; `bfill`
  replaces a `none` with the next `some` further down the column.
* FastAPI endpoint bodies are modelled as total functions returning an
  `ApiResult`; a raised `HTTPException` becomes the `httpError` constructor,
  a plain returned JSON body becomes one of the other constructors.  Each
  endpoint also returns the ordered list of data-processing events it
  performed, so that ordering claims (what ran before what) are statable.
* The two model modules (`src/sarima_model.py`, `src/xgboost_model.py`) are
  not part of the repository snapshot; endpoint functions therefore take the
  strategy implementations as abstract functional parameters.
-/

/-- A calendar date, fields as in a pandas `Timestamp`. -/
structure Date where
  year : Nat
  month : Nat
  day : Nat
deriving DecidableEq, Repr

/-- One raw transaction row of the tidy table handed to the core
(columns `Order_Date`, `Sales`, `Category`, `Region`). -/
structure Row where
  order_date : Date
  sales : ℚ
  category : String
  region : String
deriving DecidableEq, Repr

/-- Month counter of a date: calendar months since year 0.  Two dates fall in
the same resampling bucket of `resample(\x27ME\x27)` iff their `monthIndex`
agree. -/
def monthIndex (d : Date) : Nat := d.year * 12 + (d.month - 1)

/-- Gregorian leap-year test. -/
def isLeap (y : Nat) : Bool := (y % 4 == 0 && y % 100 != 0) || y % 400 == 0

/-- Number of days of month `m` (1..12) of year `y`. -/
def daysInMonth (y m : Nat) : Nat :=
  if m == 2 then (if isLeap y then 29 else 28)
  else if m == 4 || m == 6 || m == 9 || m == 11 then 30
  else 31

/-- The month-end timestamp of a month index, as produced by pandas
month-end (`ME`) resampling. -/
def monthEndDate (m : Nat) : Date :=
  ⟨m / 12, m % 12 + 1, daysInMonth (m / 12) (m % 12 + 1)⟩

/-- The dataset path constant of `data_processing.py` (there the project
root directory is prepended at runtime). -/
def FILE_NAME : String := "data/US Superstore data.xls"

/-- Outcome of the attempt to read the dataset file, abstracting the pandas
`read_excel` call of `load_data`. -/
inductive LoadOutcome where
  | ok (rows : List Row)
  | fileNotFound
  | otherError (msg : String)
deriving DecidableEq

/-- Embedding of `load_data` (src/data_processing.py, lines 10-21): the
`try/except` ladder mapping a read outcome to `(table, status string)`. -/
def load_data (o : LoadOutcome) : Option (List Row) × String :=
  match o with
  | .ok rows => (some rows, "Success")
  | .fileNotFound => (none, "Error: Archivo no encontrado en: " ++ FILE_NAME)
  | .otherError e => (none, "Error al cargar datos: " ++ e)

/-- The sequential category/region filtering of `aggregate_sales`
(src/data_processing.py, lines 28-33). -/
def filterRows (df : List Row) (category region : String) : List Row :=
  let df1 := if category != "All Categories"
    then df.filter (fun r => r.category == category) else df
  if region != "All Regions"
    then df1.filter (fun r => r.region == region) else df1

/-- Spec-side filtering predicate: a row is kept iff each dimension is either
the sentinel "All" value or matches the row. -/
def rowKept (category region : String) (r : Row) : Bool :=
  (category == "All Categories" || r.category == category) &&
  (region == "All Regions" || r.region == region)

/-- Sum of the `Sales` column over the rows falling in month bucket `m`. -/
def sumSalesInMonth (rows : List Row) (m : Nat) : ℚ :=
  (rows.filter (fun r => monthIndex r.order_date == m)).foldr
    (fun r acc => r.sales + acc) 0

/-- The month buckets of the rows. -/
def monthsOf (rows : List Row) : List Nat :=
  rows.map (fun r => monthIndex r.order_date)

/-- Embedding of `df_filtered[\x27Sales\x27].resample(\x27ME\x27).sum()`
(src/data_processing.py, line 39): one entry per calendar month from the
earliest to the latest transaction month, each holding the sum of sales of
the rows in that month (an empty bucket sums to 0). -/
def resampleME (rows : List Row) : List (Nat × ℚ) :=
  match (monthsOf rows).min?, (monthsOf rows).max? with
  | some lo, some hi =>
      (List.range (hi - lo + 1)).map (fun i => (lo + i, sumSalesInMonth rows (lo + i)))
  | _, _ => []

/-- Smallest index label of a series, `ts_monthly.index.min()`. -/
def seriesIndexMin (s : List (Nat × ℚ)) : Option Nat := (s.map Prod.fst).min?

/-- Embedding of the label-based slice `ts_monthly[ts_monthly.index.min():]`
(src/data_processing.py, line 40): keep the entries whose label is at least
the smallest label. -/
def sliceFromMin (s : List (Nat × ℚ)) : List (Nat × ℚ) :=
  match seriesIndexMin s with
  | some lo => s.filter (fun p => decide (lo ≤ p.1))
  | none => s

/-- Embedding of `aggregate_sales` (src/data_processing.py, lines 23-42). -/
def aggregate_sales (df : Option (List Row))
    (category : String := "All Categories") (region : String := "All Regions") :
    List (Nat × ℚ) × Bool :=
  match df with
  | none => ([], false)
  | some rows =>
    let df_filtered := filterRows rows category region
    if df_filtered.isEmpty then ([], false)
    else (sliceFromMin (resampleME df_filtered), true)

/-- A variant of `aggregate_sales` without the line-40 trimming slice, used
to state the refinement claim that the slice never removes anything. -/
def aggregate_sales_noTrim (df : Option (List Row))
    (category : String := "All Categories") (region : String := "All Regions") :
    List (Nat × ℚ) × Bool :=
  match df with
  | none => ([], false)
  | some rows =>
    let df_filtered := filterRows rows category region
    if df_filtered.isEmpty then ([], false)
    else (resampleME df_filtered, true)

/-- One row of the feature table `X` built by `create_features_for_ml`:
calendar features and the 12-month seasonal lag.  A `NaN` lag cell is
`none`. -/
structure FeatureRow where
  month : Nat
  year : Nat
  quarter : Nat
  lag_12 : Option ℚ
deriving DecidableEq, Repr

/-- Embedding of `df[\x27Sales\x27].shift(12)` (src/data_processing.py,
line 58): entry `i` holds the sales of entry `i - 12`, `NaN` (`none`) for
the first 12 entries. -/
def shift12 (sales : List ℚ) : List (Option ℚ) :=
  (List.range sales.length).map (fun i => if i < 12 then none else sales[i - 12]?)

/-- Embedding of the `bfill` of `df.bfill()` (src/data_processing.py,
line 61) on one column: each `NaN` cell is filled with the next non-`NaN`
value further down, and stays `NaN` when none exists.  Of the data frame
built by `create_features_for_ml` only the `lag_12` column has `NaN` cells,
so the frame-level `bfill` acts on that column alone. -/
def bfillCol (l : List (Option ℚ)) : List (Option ℚ) :=
  (List.range l.length).map (fun i => ((l.drop i).filterMap id).head?)

/-- Embedding of `create_features_for_ml` (src/data_processing.py,
lines 44-67), returning the feature table `X` and the target `y`.
`month`, `year` and `quarter` come from the month-index label exactly as
pandas derives them from the month-end timestamp. -/
def create_features_for_ml (ts_data : List (Nat × ℚ)) :
    List FeatureRow × List ℚ :=
  let sales := ts_data.map Prod.snd
  let lag := bfillCol (shift12 sales)
  let X := (ts_data.zip lag).map (fun p =>
    { month := p.1.1 % 12 + 1
      year := p.1.1 / 12
      quarter := (p.1.1 % 12) / 3 + 1
      lag_12 := p.2 })
  (X, sales)

/-! ### The API layer (`api_service.py`) -/

/-- The decimal digit character of `n % 10`. -/
def digitChar (n : Nat) : Char := Char.ofNat (48 + n % 10)

/-- Embedding of `strftime("%Y-%m-%d")`: four zero-padded year digits and two
zero-padded month and day digits, dash-separated.  Faithful on the pandas
`Timestamp` domain, whose years range over 1677..2262. -/
def formatDate (d : Date) : String :=
  String.mk [digitChar (d.year / 1000), digitChar (d.year / 100),
    digitChar (d.year / 10), digitChar d.year, '-',
    digitChar (d.month / 10), digitChar d.month, '-',
    digitChar (d.day / 10), digitChar d.day]

/-- `c` is one of the characters 0..9. -/
def isDigitChar (c : Char) : Bool := 48 ≤ c.toNat && c.toNat ≤ 57

/-- The shape "YYYY-MM-DD": ten characters, digits everywhere except dashes
at positions 4 and 7.  This is the calendar-string format the spec requires
on the wire, as opposed to a numeric timestamp encoding. -/
def dateStringOk (s : String) : Bool :=
  match s.toList with
  | [y1, y2, y3, y4, s1, m1, m2, s2, d1, d2] =>
      isDigitChar y1 && isDigitChar y2 && isDigitChar y3 && isDigitChar y4 &&
      s1 == '-' && isDigitChar m1 && isDigitChar m2 && s2 == '-' &&
      isDigitChar d1 && isDigitChar d2
  | _ => false

/-- One row of a strategy's forecast frame: month-end index label, point
forecast, and optional (`NaN`-able) confidence bounds. -/
structure ForecastRow where
  date : Nat
  salesForecast : ℚ
  lowerBound : Option ℚ
  upperBound : Option ℚ
deriving DecidableEq, Repr

/-- Type of `get_sarima_forecast` / `get_xgboost_forecast`: series and step
count in, optional forecast frame and status string out.  The two model
modules are absent from the repository snapshot, so endpoint functions take
the strategies as parameters. -/
def ForecastStrategy : Type := List (Nat × ℚ) → Nat → Option (List ForecastRow) × String

/-- The metrics dictionary returned by `run_backtest_sarima` /
`run_backtest_xgboost`: a status, a message (read when the status is not
"Success"), and the two error metrics. -/
structure Metrics where
  status : String
  message : String
  mape : ℚ
  rmse : ℚ
deriving DecidableEq, Repr

/-- Type of `run_backtest_sarima` / `run_backtest_xgboost`: series and test
month count in, metrics dictionary out. -/
def BacktestStrategy : Type := List (Nat × ℚ) → Nat → Metrics

/-- The JSON body of a successful forecast response (api_service.py,
lines 96-101). -/
structure ForecastResponse where
  model_used : String
  historyIndex : List String
  historyData : List ℚ
  forecast : List (String × ℚ × Option ℚ × Option ℚ)
deriving DecidableEq, Repr

/-- The observable outcome of one endpoint invocation: a raised
`HTTPException` (`httpError`), a JSON body with `status: "error"`
(`jsonError`), a plain message body, or one of the success bodies. -/
inductive ApiResult where
  | httpError (code : Nat) (detail : String)
  | jsonError (message : String)
  | jsonMessage (message : String)
  | filtersOk (categories regions : List String)
  | forecastOk (resp : ForecastResponse)
  | metricsOk (model_used : String) (mape rmse : ℚ)
deriving DecidableEq, Repr

/-- Data-processing events an endpoint performs, in execution order; used to
state which work happens before which outcome. -/
inductive Ev where
  | aggregated
  | modelRun (model_type : String)
deriving DecidableEq, Repr

/-- Embedding of the root endpoint `read_root` (api_service.py,
lines 39-41); it consults neither the table nor the load status. -/
def read_root (_df : Option (List Row)) (_status : String) : ApiResult :=
  .jsonMessage "Welcome to the Retail Forecasting API. Access /docs for documentation."

/-- `sorted(unique(l))`: the distinct elements of `l` in increasing order. -/
def uniqueSorted (l : List String) : List String :=
  l.dedup.mergeSort (fun a b => decide (a ≤ b))

/-- The category filter list built at process start (api_service.py,
line 33). -/
def CATEGORIES (rows : List Row) : List String :=
  "All Categories" :: uniqueSorted (rows.map (fun r => r.category))

/-- The region filter list built at process start (api_service.py,
line 34). -/
def REGIONS (rows : List Row) : List String :=
  "All Regions" :: uniqueSorted (rows.map (fun r => r.region))

/-- Embedding of `get_filters` (api_service.py, lines 43-48). -/
def get_filters (df : Option (List Row)) (status : String) : ApiResult :=
  match df with
  | none => .httpError 500 ("Datos no cargados. Razón: " ++ status)
  | some rows => .filtersOk (CATEGORIES rows) (REGIONS rows)

/-- The 400 detail raised for an unknown `model_type` (api_service.py,
lines 77 and 125). -/
def unknownStrategyDetail : String := "model_type debe ser \x27sarima\x27 o \x27xgboost\x27"

/-- The history part of a forecast response: each month-end label rendered
with `strftime("%Y-%m-%d")` (api_service.py, lines 86-89). -/
def historyIndexJson (ts : List (Nat × ℚ)) : List String :=
  ts.map (fun p => formatDate (monthEndDate p.1))

/-- The forecast records of the response: index rendered as a date string
and moved into the `Date` field (api_service.py, lines 93-94). -/
def forecastRecords (rows : List ForecastRow) : List (String × ℚ × Option ℚ × Option ℚ) :=
  rows.map (fun r => (formatDate (monthEndDate r.date), r.salesForecast, r.lowerBound, r.upperBound))

/-- The tail of the forecast endpoint after the model has run
(api_service.py, lines 79-101): the 400 raise when the status is not
"Success" or the frame is missing, else the JSON response. -/
def finishForecast (model_type : String) (ts_history : List (Nat × ℚ))
    (out : Option (List ForecastRow) × String) : ApiResult :=
  match out with
  | (some forecast_df, status) =>
    if status != "Success" then
      .httpError 400 ("Error en el modelo " ++ model_type ++ ": " ++ status)
    else
      .forecastOk { model_used := model_type
                    historyIndex := historyIndexJson ts_history
                    historyData := ts_history.map Prod.snd
                    forecast := forecastRecords forecast_df }
  | (none, status) =>
      .httpError 400 ("Error en el modelo " ++ model_type ++ ": " ++ status)

/-- Embedding of `sales_forecast_endpoint` (api_service.py, lines 51-101),
returning the event trace alongside the result. -/
def sales_forecast_endpoint (sarimaStrategy xgboostStrategy : ForecastStrategy)
    (df : Option (List Row)) (status : String)
    (model_type category region : String) (steps : Nat) :
    List Ev × ApiResult :=
  match df with
  | none => ([], .httpError 500 ("Error de carga de datos inicial: " ++ status))
  | some rows =>
    let agg := aggregate_sales (some rows) category region
    if !agg.2 then
      ([.aggregated], .jsonError ("No data found for " ++ category ++ "/" ++ region ++ "."))
    else if model_type == "sarima" then
      ([.aggregated, .modelRun "sarima"],
        finishForecast model_type agg.1 (sarimaStrategy agg.1 steps))
    else if model_type == "xgboost" then
      ([.aggregated, .modelRun "xgboost"],
        finishForecast model_type agg.1 (xgboostStrategy agg.1 steps))
    else
      ([.aggregated], .httpError 400 unknownStrategyDetail)

/-- The tail of the evaluation endpoint after the backtest has run
(api_service.py, lines 128-132). -/
def finishMetrics (model_type : String) (metrics : Metrics) : ApiResult :=
  if metrics.status != "Success" then .httpError 400 metrics.message
  else .metricsOk model_type metrics.mape metrics.rmse

/-- Embedding of `sales_evaluation_endpoint` (api_service.py,
lines 103-132), returning the event trace alongside the result. -/
def sales_evaluation_endpoint (sarimaBacktest xgboostBacktest : BacktestStrategy)
    (df : Option (List Row)) (status : String)
    (model_type category region : String) :
    List Ev × ApiResult :=
  match df with
  | none => ([], .httpError 500 ("Error de carga de datos inicial: " ++ status))
  | some rows =>
    let agg := aggregate_sales (some rows) category region
    if !agg.2 then
      ([.aggregated], .jsonError ("No data found for " ++ category ++ "/" ++ region ++ "."))
    else if model_type == "sarima" then
      ([.aggregated, .modelRun "sarima"], finishMetrics model_type (sarimaBacktest agg.1 12))
    else if model_type == "xgboost" then
      ([.aggregated, .modelRun "xgboost"], finishMetrics model_type (xgboostBacktest agg.1 12))
    else
      ([.aggregated], .httpError 400 unknownStrategyDetail)

/-- Every date string carried by an endpoint result: the history index
entries and the `Date` field of each forecast record. -/
def apiDateStrings : ApiResult → List String
  | .forecastOk resp => resp.historyIndex ++ resp.forecast.map (fun rec => rec.1)
  | _ => []

/-- Modelled from the spec: the backtest metric computation lives in
`src/sarima_model.py` and `src/xgboost_model.py`, which are not part of the
repository snapshot.  Per spec section 4.5, MAPE is the mean of
`|actual - predicted| / actual` over the pairs whose actual is nonzero,
scaled to a percentage, and an all-zero-actuals window is an error rather
than a number (`none` here). -/
def mape (actual predicted : List ℚ) : Option ℚ :=
  let pairs := (actual.zip predicted).filter (fun p => decide (p.1 ≠ 0))
  if pairs.isEmpty then none
  else some (((pairs.map (fun p => |p.1 - p.2| / p.1)).sum / (pairs.length : ℚ)) * 100)

/- Sanity checks (kept as anonymous examples; they also pin down the
embedding on concrete inputs). -/

example :
    ((aggregate_sales
      (some [⟨⟨2014, 1, 5⟩, 10, "Furniture", "West"⟩,
             ⟨⟨2014, 3, 7⟩, 20, "Furniture", "West"⟩])
      "All Categories" "All Regions").1.map Prod.fst, true) =
    ([24168, 24169, 24170], true) := by decide

example :
    aggregate_sales
      (some [⟨⟨2014, 1, 5⟩, 10, "Furniture", "West"⟩])
      "Technology" "All Regions" = ([], false) := by decide

example :
    (create_features_for_ml [(24168, 5)]).1 =
      [{ month := 1, year := 2014, quarter := 1, lag_12 := none }] := by decide

example : formatDate ⟨2014, 1, 31⟩ = "2014-01-31" := by decide

example : dateStringOk "2014-01-31" = true := by decide

example : dateStringOk "1388448000000" = false := by decide

example : mape [0, 100, 200] [10, 110, 190] = some (15/2) := by
  norm_num [mape, List.zip, List.zipWith, List.filter, List.sum]

/-! ### Helper lemmas -/

theorem map_fst_resampleME (rows : List Row) (lo hi : Nat)
    (h1 : (monthsOf rows).min? = some lo) (h2 : (monthsOf rows).max? = some hi) :
    (resampleME rows).map Prod.fst = (List.range (hi - lo + 1)).map (fun i => lo + i) := by
  unfold resampleME
  rw [h1, h2]
  simp [List.map_map, Function.comp]

theorem seriesIndexMin_resampleME (rows : List Row) (lo hi : Nat)
    (h1 : (monthsOf rows).min? = some lo) (h2 : (monthsOf rows).max? = some hi) :
    seriesIndexMin (resampleME rows) = some lo := by
  unfold seriesIndexMin
  rw [map_fst_resampleME rows lo hi h1 h2]
  rw [List.min?_eq_some_iff']
  constructor
  · exact List.mem_map.mpr ⟨0, List.mem_range.mpr (by omega), rfl⟩
  · intro b hb
    obtain ⟨i, _, rfl⟩ := List.mem_map.mp hb
    omega

theorem sliceFromMin_resampleME (rows : List Row) :
    sliceFromMin (resampleME rows) = resampleME rows := by
  rcases h1 : (monthsOf rows).min? with _ | lo
  · have he : resampleME rows = [] := by
      unfold resampleME
      rw [h1]
    rw [he]
    rfl
  · rcases h2 : (monthsOf rows).max? with _ | hi
    · have he : resampleME rows = [] := by
        unfold resampleME
        rw [h1, h2]
      rw [he]
      rfl
    · unfold sliceFromMin
      rw [seriesIndexMin_resampleME rows lo hi h1 h2]
      apply List.filter_eq_self.mpr
      intro p hp
      have hp2 : p ∈ (List.range (hi - lo + 1)).map
          (fun i => (lo + i, sumSalesInMonth rows (lo + i))) := by
        unfold resampleME at hp
        rw [h1, h2] at hp
        exact hp
      obtain ⟨i, _, rfl⟩ := List.mem_map.mp hp2
      simp

/-! ### Claim theorems -/

/-- C8: `aggregate_sales` keeps a row iff each of the category and region
dimensions is either the sentinel "All" value or matches the row; the
sequential filtering of the source is equivalent to the conjunctive
predicate `rowKept`. -/
theorem C8_filter_semantics (df : List Row) (category region : String) (r : Row) :
    r ∈ filterRows df category region ↔ r ∈ df ∧ rowKept category region r = true := by
  unfold filterRows rowKept
  by_cases hc : category = "All Categories" <;> by_cases hr : region = "All Regions" <;>
    (simp [hc, hr, List.mem_filter, and_assoc]; try tauto)

/-- C10: the trimming slice `ts_monthly[ts_monthly.index.min():]` of
`aggregate_sales` is an identity operation: on every input the function
agrees with the variant that resamples without the slice, because the
resampled index already begins at the month of the earliest filtered
transaction. -/
theorem C10_trim_is_identity (df : Option (List Row)) (category region : String) :
    aggregate_sales df category region = aggregate_sales_noTrim df category region := by
  rcases df with _ | rows
  · rfl
  · unfold aggregate_sales aggregate_sales_noTrim
    simp only
    rw [sliceFromMin_resampleME]

/-- A sample transaction row used in concrete witnesses. -/
def sampleRow : Row := ⟨⟨2014, 1, 5⟩, 10, "Furniture", "West"⟩

/-- A second sample transaction row, two months later. -/
def sampleRow2 : Row := ⟨⟨2014, 3, 7⟩, 20, "Furniture", "West"⟩

/-- A constant forecast strategy used in concrete witnesses. -/
def constForecastStrategy : ForecastStrategy :=
  fun _ _ => (some [⟨24180, 42, none, none⟩], "Success")

/-- A constant backtest strategy used in concrete witnesses. -/
def constBacktestStrategy : BacktestStrategy :=
  fun _ _ => ⟨"Success", "", 5, 7⟩

/-- C6: a selection matching zero rows makes `aggregate_sales` return
`hasData = false` with an empty series, and both endpoints surface this as
a returned `status: "error"` JSON body (the `jsonError` constructor), not a
raised `HTTPException`. -/
theorem C6_no_data_is_normal_result
    (sf xf : ForecastStrategy) (sb xb : BacktestStrategy)
    (rows : List Row) (status category region : String) (steps : Nat)
    (h : filterRows rows category region = []) :
    aggregate_sales (some rows) category region = ([], false) ∧
    (∀ model_type,
      (sales_forecast_endpoint sf xf (some rows) status model_type category region steps).2 =
        .jsonError ("No data found for " ++ category ++ "/" ++ region ++ ".")) ∧
    (∀ model_type,
      (sales_evaluation_endpoint sb xb (some rows) status model_type category region).2 =
        .jsonError ("No data found for " ++ category ++ "/" ++ region ++ ".")) := by
  have hagg : aggregate_sales (some rows) category region = ([], false) := by
    unfold aggregate_sales
    simp [h]
  refine ⟨hagg, ?_, ?_⟩ <;> intro model_type <;>
    simp [sales_forecast_endpoint, sales_evaluation_endpoint, hagg]

/-- C6 witness: a concrete table with no "Technology" rows. -/
theorem C6_witness :
    filterRows [sampleRow] "Technology" "All Regions" = [] ∧
    (aggregate_sales (some [sampleRow]) "Technology" "All Regions" = ([], false) ∧
    (∀ model_type,
      (sales_forecast_endpoint constForecastStrategy constForecastStrategy
        (some [sampleRow]) "Success" model_type "Technology" "All Regions" 12).2 =
        .jsonError ("No data found for " ++ "Technology" ++ "/" ++ "All Regions" ++ ".")) ∧
    (∀ model_type,
      (sales_evaluation_endpoint constBacktestStrategy constBacktestStrategy
        (some [sampleRow]) "Success" model_type "Technology" "All Regions").2 =
        .jsonError ("No data found for " ++ "Technology" ++ "/" ++ "All Regions" ++ "."))) :=
  ⟨by decide,
   C6_no_data_is_normal_result constForecastStrategy constForecastStrategy
     constBacktestStrategy constBacktestStrategy [sampleRow] "Success"
     "Technology" "All Regions" 12 (by decide)⟩

/-- C7 counterexample: after a failed dataset load the root endpoint `/`
still answers with its welcome message rather than failing with the stored
reason, refuting "every subsequent request to every endpoint fails
immediately with that stored reason". -/
theorem C7_counterexample :
    (load_data .fileNotFound).1 = none ∧
    (load_data .fileNotFound).2 ≠ "Success" ∧
    read_root (load_data .fileNotFound).1 (load_data .fileNotFound).2 =
      .jsonMessage
        "Welcome to the Retail Forecasting API. Access /docs for documentation." :=
  ⟨rfl, by decide, rfl⟩

/-- C7 (amended): when the dataset fails to load, `load_data` returns a null
table paired with a non-"Success" reason, and every dataset-dependent
endpoint (the filter-list, forecast and evaluation endpoints) fails
immediately with a 500 error carrying that stored reason; the dataset-free
root endpoint, however, still serves its welcome message. -/
theorem C7_load_failure_propagation
    (o : LoadOutcome) (h : (load_data o).1 = none)
    (sf xf : ForecastStrategy) (sb xb : BacktestStrategy)
    (model_type category region : String) (steps : Nat) :
    (load_data o).2 ≠ "Success" ∧
    get_filters (load_data o).1 (load_data o).2 =
      .httpError 500 ("Datos no cargados. Razón: " ++ (load_data o).2) ∧
    sales_forecast_endpoint sf xf (load_data o).1 (load_data o).2
        model_type category region steps =
      ([], .httpError 500 ("Error de carga de datos inicial: " ++ (load_data o).2)) ∧
    sales_evaluation_endpoint sb xb (load_data o).1 (load_data o).2
        model_type category region =
      ([], .httpError 500 ("Error de carga de datos inicial: " ++ (load_data o).2)) := by
  refine ⟨?_, ?_, ?_, ?_⟩
  · rcases o with rows | _ | e
    · exact absurd h (by simp [load_data])
    · decide
    · intro heq
      have heq2 : ("Error al cargar datos: " ++ e) = "Success" := heq
      have hlen := congrArg String.length heq2
      rw [String.length_append] at hlen
      have hl1 : ("Error al cargar datos: " : String).length = 23 := by decide
      have hl2 : ("Success" : String).length = 7 := by decide
      omega
  · rw [h]; rfl
  · rw [h]; rfl
  · rw [h]; rfl

/-- C7 witness: concrete failed load and concrete strategies. -/
theorem C7_witness :
    (load_data .fileNotFound).1 = none ∧
    ((load_data .fileNotFound).2 ≠ "Success" ∧
    get_filters (load_data .fileNotFound).1 (load_data .fileNotFound).2 =
      .httpError 500 ("Datos no cargados. Razón: " ++ (load_data .fileNotFound).2) ∧
    sales_forecast_endpoint constForecastStrategy constForecastStrategy
        (load_data .fileNotFound).1 (load_data .fileNotFound).2
        "sarima" "All Categories" "All Regions" 12 =
      ([], .httpError 500
        ("Error de carga de datos inicial: " ++ (load_data .fileNotFound).2)) ∧
    sales_evaluation_endpoint constBacktestStrategy constBacktestStrategy
        (load_data .fileNotFound).1 (load_data .fileNotFound).2
        "sarima" "All Categories" "All Regions" =
      ([], .httpError 500
        ("Error de carga de datos inicial: " ++ (load_data .fileNotFound).2))) :=
  ⟨rfl, C7_load_failure_propagation .fileNotFound rfl
    constForecastStrategy constForecastStrategy
    constBacktestStrategy constBacktestStrategy
    "sarima" "All Categories" "All Regions" 12⟩

/-- C5 counterexample: with a loaded table, a non-empty selection and the
bogus identifier "bogus", the forecast endpoint does reject with the
distinct 400 unknown-strategy error, but its event trace shows the data was
aggregated first — refuting "this rejection happens before any data work
begins". -/
theorem C5_counterexample :
    sales_forecast_endpoint constForecastStrategy constForecastStrategy
        (some [sampleRow]) "Success" "bogus" "All Categories" "All Regions" 12 =
      ([Ev.aggregated], .httpError 400 unknownStrategyDetail) ∧
    Ev.aggregated ∈
      (sales_forecast_endpoint constForecastStrategy constForecastStrategy
        (some [sampleRow]) "Success" "bogus" "All Categories" "All Regions" 12).1 := by
  constructor
  · decide
  · decide

/-- C5 (amended): for every strategy identifier other than "sarima" and
"xgboost" and every selection whose filtered row set is non-empty, both the
forecast and evaluation endpoints fail with the distinct 400
unknown-strategy error and never invoke either real strategy (no model-run
event in the trace) — but only after the data has been aggregated (the
trace is exactly the aggregation event), not before data work begins. -/
theorem C5_unknown_strategy_rejection
    (sf xf : ForecastStrategy) (sb xb : BacktestStrategy)
    (rows : List Row) (status model_type category region : String) (steps : Nat)
    (h1 : model_type ≠ "sarima") (h2 : model_type ≠ "xgboost")
    (h3 : filterRows rows category region ≠ []) :
    sales_forecast_endpoint sf xf (some rows) status model_type category region steps =
      ([Ev.aggregated], .httpError 400 unknownStrategyDetail) ∧
    sales_evaluation_endpoint sb xb (some rows) status model_type category region =
      ([Ev.aggregated], .httpError 400 unknownStrategyDetail) := by
  have hagg : (aggregate_sales (some rows) category region).2 = true := by
    unfold aggregate_sales
    simp [List.isEmpty_iff, h3]
  constructor <;>
    (simp [sales_forecast_endpoint, sales_evaluation_endpoint, hagg, h1, h2]; try rfl)

/-- C5 witness: the bogus identifier on a concrete loaded table. -/
theorem C5_witness :
    ("bogus" : String) ≠ "sarima" ∧ ("bogus" : String) ≠ "xgboost" ∧
    filterRows [sampleRow] "All Categories" "All Regions" ≠ [] ∧
    (sales_forecast_endpoint constForecastStrategy constForecastStrategy
        (some [sampleRow]) "Success" "bogus" "All Categories" "All Regions" 12 =
      ([Ev.aggregated], .httpError 400 unknownStrategyDetail) ∧
    sales_evaluation_endpoint constBacktestStrategy constBacktestStrategy
        (some [sampleRow]) "Success" "bogus" "All Categories" "All Regions" =
      ([Ev.aggregated], .httpError 400 unknownStrategyDetail)) :=
  ⟨by decide, by decide, by decide,
   C5_unknown_strategy_rejection constForecastStrategy constForecastStrategy
     constBacktestStrategy constBacktestStrategy [sampleRow] "Success"
     "bogus" "All Categories" "All Regions" 12 (by decide) (by decide) (by decide)⟩

/-- The lag feature column of the table built by `create_features_for_ml`. -/
def lagColumn (ts : List (Nat × ℚ)) : List (Option ℚ) :=
  (create_features_for_ml ts).1.map FeatureRow.lag_12

theorem length_shift12 (s : List ℚ) : (shift12 s).length = s.length := by
  simp [shift12]

theorem length_bfillCol (l : List (Option ℚ)) : (bfillCol l).length = l.length := by
  simp [bfillCol]

theorem length_featureTable (ts : List (Nat × ℚ)) :
    (create_features_for_ml ts).1.length = ts.length := by
  unfold create_features_for_ml
  simp [List.length_zip, length_bfillCol, length_shift12]

theorem lagColumn_eq (ts : List (Nat × ℚ)) :
    lagColumn ts = bfillCol (shift12 (ts.map Prod.snd)) := by
  unfold lagColumn create_features_for_ml
  simp only [List.map_map]
  have hc : (FeatureRow.lag_12 ∘ fun p : (Nat × ℚ) × Option ℚ =>
      ({ month := p.1.1 % 12 + 1, year := p.1.1 / 12,
         quarter := p.1.1 % 12 / 3 + 1, lag_12 := p.2 } : FeatureRow)) = Prod.snd := rfl
  rw [hc]
  exact List.map_snd_zip _ _ (by simp [length_bfillCol, length_shift12])

theorem shift12_eq (s : List ℚ) :
    shift12 s =
      List.replicate (min 12 s.length) none ++ (s.take (s.length - 12)).map some := by
  apply List.ext_getElem?
  intro i
  rw [List.getElem?_append, List.length_replicate]
  rcases Nat.lt_or_ge i s.length with hi | hi
  · have hl : (shift12 s)[i]? = some (if i < 12 then none else s[i - 12]?) := by
      simp only [shift12]
      rw [List.getElem?_map, List.getElem?_range hi]
      rfl
    rw [hl]
    rcases Nat.lt_or_ge i 12 with h12 | h12
    · rw [if_pos (show i < min 12 s.length by omega), List.getElem?_replicate,
        if_pos (show i < min 12 s.length by omega), if_pos h12]
    · rw [if_neg (show ¬ i < min 12 s.length by omega),
        show min 12 s.length = 12 from by omega, List.getElem?_map,
        List.getElem?_take, if_pos (show i - 12 < s.length - 12 by omega),
        List.getElem?_eq_getElem (show i - 12 < s.length by omega), if_neg (by omega)]
      rfl
  · rw [List.getElem?_eq_none (show (shift12 s).length ≤ i from by
        rw [length_shift12]; omega),
      if_neg (show ¬ i < min 12 s.length by omega),
      List.getElem?_eq_none (show ((s.take (s.length - 12)).map some).length
          ≤ i - min 12 s.length from by simp [List.length_take]; omega)]

theorem bfillCol_getElem? (l : List (Option ℚ)) (i : Nat) (hi : i < l.length) :
    (bfillCol l)[i]? = some (((l.drop i).filterMap id).head?) := by
  unfold bfillCol
  rw [List.getElem?_map, List.getElem?_range hi]
  rfl

theorem filterMap_id_replicate_none (n : Nat) :
    (List.replicate n (none : Option ℚ)).filterMap id = [] := by
  simp [List.filterMap_replicate]

theorem filterMap_id_map_some (l : List ℚ) : (l.map some).filterMap id = l := by
  rw [List.filterMap_map]
  exact List.filterMap_some l

theorem lag_true_for_late (ts : List (Nat × ℚ)) (i : Nat)
    (h12 : 12 ≤ i) (hi : i < ts.length) :
    (lagColumn ts)[i]? = some ((ts.map Prod.snd)[i - 12]?) := by
  have hlen : (ts.map Prod.snd).length = ts.length := by simp
  rw [lagColumn_eq, bfillCol_getElem? _ i (by rw [length_shift12]; omega)]
  congr 1
  rw [shift12_eq]
  have hmin : min 12 (ts.map Prod.snd).length = 12 := by omega
  rw [hmin, List.drop_append_eq_append_drop, List.length_replicate, List.drop_replicate]
  rw [show 12 - i = 0 from by omega]
  simp only [List.replicate_zero, List.nil_append]
  rw [← List.map_drop, filterMap_id_map_some, List.head?_eq_getElem?, List.getElem?_drop,
    Nat.add_zero, List.getElem?_take, if_pos (by omega)]

theorem lag_backfilled_for_early (ts : List (Nat × ℚ)) (i : Nat)
    (h13 : 13 ≤ ts.length) (hi : i < 12) :
    (lagColumn ts)[i]? = some ((ts.map Prod.snd)[0]?) := by
  have hlen : (ts.map Prod.snd).length = ts.length := by simp
  rw [lagColumn_eq, bfillCol_getElem? _ i (by rw [length_shift12]; omega)]
  congr 1
  rw [shift12_eq]
  have hmin : min 12 (ts.map Prod.snd).length = 12 := by omega
  rw [hmin, List.drop_append_eq_append_drop, List.length_replicate, List.drop_replicate]
  rw [show i - 12 = 0 from by omega]
  simp only [List.drop_zero]
  rw [List.filterMap_append, filterMap_id_replicate_none, List.nil_append,
    filterMap_id_map_some, List.head?_eq_getElem?, List.getElem?_take,
    if_pos (by omega)]

theorem calendar_columns_aligned (ts : List (Nat × ℚ)) :
    (create_features_for_ml ts).1.map FeatureRow.month =
      ts.map (fun p => p.1 % 12 + 1) ∧
    (create_features_for_ml ts).1.map FeatureRow.year =
      ts.map (fun p => p.1 / 12) ∧
    (create_features_for_ml ts).1.map FeatureRow.quarter =
      ts.map (fun p => p.1 % 12 / 3 + 1) := by
  unfold create_features_for_ml
  simp only [List.map_map]
  have hfst := List.map_fst_zip ts (bfillCol (shift12 (ts.map Prod.snd)))
    (by simp [length_bfillCol, length_shift12])
  refine ⟨?_, ?_, ?_⟩
  · rw [show (FeatureRow.month ∘ fun p : (Nat × ℚ) × Option ℚ =>
        ({ month := p.1.1 % 12 + 1, year := p.1.1 / 12,
           quarter := p.1.1 % 12 / 3 + 1, lag_12 := p.2 } : FeatureRow)) =
        (fun q : Nat × ℚ => q.1 % 12 + 1) ∘ Prod.fst from rfl]
    rw [← List.map_map, hfst]
  · rw [show (FeatureRow.year ∘ fun p : (Nat × ℚ) × Option ℚ =>
        ({ month := p.1.1 % 12 + 1, year := p.1.1 / 12,
           quarter := p.1.1 % 12 / 3 + 1, lag_12 := p.2 } : FeatureRow)) =
        (fun q : Nat × ℚ => q.1 / 12) ∘ Prod.fst from rfl]
    rw [← List.map_map, hfst]
  · rw [show (FeatureRow.quarter ∘ fun p : (Nat × ℚ) × Option ℚ =>
        ({ month := p.1.1 % 12 + 1, year := p.1.1 / 12,
           quarter := p.1.1 % 12 / 3 + 1, lag_12 := p.2 } : FeatureRow)) =
        (fun q : Nat × ℚ => q.1 % 12 / 3 + 1) ∘ Prod.fst from rfl]
    rw [← List.map_map, hfst]

/-- A concrete 13-month series (Jan 2014 .. Jan 2015) whose first and
thirteenth sales values differ, used in concrete witnesses. -/
def sampleSeries13 : List (Nat × ℚ) :=
  [(24168, 1), (24169, 0), (24170, 0), (24171, 0), (24172, 0), (24173, 0),
   (24174, 0), (24175, 0), (24176, 0), (24177, 0), (24178, 0), (24179, 0),
   (24180, 2)]

/-- C2 counterexample: for a one-entry series `create_features_for_ml`
leaves the first lag cell missing (`NaN`, modelled `none`) instead of
back-filling it with the earliest actual value 5, refuting the claim for
series shorter than 13 entries. -/
theorem C2_counterexample :
    (create_features_for_ml [((24168 : Nat), (5 : ℚ))]).1.map FeatureRow.lag_12 =
      [none] ∧ (none : Option ℚ) ≠ some 5 :=
  ⟨by decide, by decide⟩

/-- C2 (amended): for every series of length at least 13,
`create_features_for_ml` produces exactly one feature row per entry,
positionally aligned (month, year, quarter and target columns agree with the
series entry at the same position), with `lag_12[i] = sales[i - 12]` for
`i ≥ 12` and `lag_12[i]` back-filled with the earliest actual series value
`sales[0]` for `i < 12`; for shorter series the lag cells stay missing. -/
theorem C2_feature_table_shape (ts : List (Nat × ℚ)) (h : 13 ≤ ts.length) :
    (create_features_for_ml ts).1.length = ts.length ∧
    (create_features_for_ml ts).1.map FeatureRow.month =
      ts.map (fun p => p.1 % 12 + 1) ∧
    (create_features_for_ml ts).1.map FeatureRow.year =
      ts.map (fun p => p.1 / 12) ∧
    (create_features_for_ml ts).1.map FeatureRow.quarter =
      ts.map (fun p => p.1 % 12 / 3 + 1) ∧
    (create_features_for_ml ts).2 = ts.map Prod.snd ∧
    (∀ i, 12 ≤ i → i < ts.length →
      (lagColumn ts)[i]? = some ((ts.map Prod.snd)[i - 12]?)) ∧
    (∀ i < 12, (lagColumn ts)[i]? = some ((ts.map Prod.snd)[0]?)) := by
  obtain ⟨hm, hy, hq⟩ := calendar_columns_aligned ts
  exact ⟨length_featureTable ts, hm, hy, hq, rfl,
    fun i h12 hi => lag_true_for_late ts i h12 hi,
    fun i hi => lag_backfilled_for_early ts i h hi⟩

/-- C2 witness: the shape statement instantiated at the concrete 13-month
series. -/
theorem C2_witness :
    13 ≤ sampleSeries13.length ∧
    ((create_features_for_ml sampleSeries13).1.length = sampleSeries13.length ∧
    (create_features_for_ml sampleSeries13).1.map FeatureRow.month =
      sampleSeries13.map (fun p => p.1 % 12 + 1) ∧
    (create_features_for_ml sampleSeries13).1.map FeatureRow.year =
      sampleSeries13.map (fun p => p.1 / 12) ∧
    (create_features_for_ml sampleSeries13).1.map FeatureRow.quarter =
      sampleSeries13.map (fun p => p.1 % 12 / 3 + 1) ∧
    (create_features_for_ml sampleSeries13).2 = sampleSeries13.map Prod.snd ∧
    (∀ i, 12 ≤ i → i < sampleSeries13.length →
      (lagColumn sampleSeries13)[i]? =
        some ((sampleSeries13.map Prod.snd)[i - 12]?)) ∧
    (∀ i < 12, (lagColumn sampleSeries13)[i]? =
      some ((sampleSeries13.map Prod.snd)[0]?))) :=
  ⟨by decide, C2_feature_table_shape sampleSeries13 (by decide)⟩

/-- C3 counterexample: on the concrete 13-month series with `sales[0] = 1`
and `sales[12] = 2`, the first back-filled lag value is `sales[0] = 1`, not
`sales[12] = 2` as the claim states. -/
theorem C3_counterexample :
    (lagColumn sampleSeries13)[0]? = some (some 1) ∧
    (sampleSeries13.map Prod.snd)[12]? = some 2 ∧
    (some (some (1 : ℚ)) : Option (Option ℚ)) ≠ some (some 2) :=
  ⟨by decide, by decide, by decide⟩

/-- C3 (amended): for every series of length at least 13, each of the first
12 lag values equals `sales[0]`, the earliest actual value of the series
(back-fill propagates the first truly defined lag cell, which holds
`sales[0]`, not `sales[12]`). -/
theorem C3_backfill_direction (ts : List (Nat × ℚ)) (h : 13 ≤ ts.length) :
    ∀ i < 12, (lagColumn ts)[i]? = some ((ts.map Prod.snd)[0]?) :=
  fun i hi => lag_backfilled_for_early ts i h hi

/-- C3 witness: the amended statement at the concrete 13-month series. -/
theorem C3_witness :
    13 ≤ sampleSeries13.length ∧
    (∀ i < 12, (lagColumn sampleSeries13)[i]? =
      some ((sampleSeries13.map Prod.snd)[0]?)) :=
  ⟨by decide, C3_backfill_direction sampleSeries13 (by decide)⟩

/-- C4: MAPE is the mean of `|actual - predicted| / actual` scaled by 100
taken only over the pairs whose actual value is nonzero: a zero-actual pair
is dropped from numerator and denominator, and on
`actual = [0, 100, 200]`, `predicted = [10, 110, 190]` the result equals
the MAPE of indices 1 and 2 alone, namely 7.5. -/
theorem C4_mape_excludes_zero_actuals :
    (∀ (y : ℚ) (a p : List ℚ), mape (0 :: a) (y :: p) = mape a p) ∧
    mape [0, 100, 200] [10, 110, 190] = mape [100, 200] [110, 190] ∧
    mape [100, 200] [110, 190] = some (15 / 2) := by
  have hdrop : ∀ (y : ℚ) (a p : List ℚ), mape (0 :: a) (y :: p) = mape a p := by
    intro y a p
    have hfil : ((0 : ℚ), y) :: a.zip p = ((0 : ℚ) :: a).zip (y :: p) := rfl
    have hdropped : (((0 : ℚ) :: a).zip (y :: p)).filter (fun q => decide (q.1 ≠ 0)) =
        (a.zip p).filter (fun q => decide (q.1 ≠ 0)) := by
      rw [← hfil]
      norm_num
    simp only [mape, hdropped]
  refine ⟨hdrop, hdrop 10 [100, 200] [110, 190], ?_⟩
  norm_num [mape, List.zip, List.zipWith, List.filter, List.sum]

theorem isDigitChar_digitChar (n : Nat) : isDigitChar (digitChar n) = true := by
  unfold digitChar isDigitChar
  have h : n % 10 < 10 := Nat.mod_lt _ (by norm_num)
  revert h
  generalize n % 10 = k
  intro h
  interval_cases k <;> decide

theorem dateStringOk_formatDate (d : Date) : dateStringOk (formatDate d) = true := by
  have h : dateStringOk (formatDate d) =
      (isDigitChar (digitChar (d.year / 1000)) && isDigitChar (digitChar (d.year / 100)) &&
       isDigitChar (digitChar (d.year / 10)) && isDigitChar (digitChar d.year) &&
       ('-' == '-') && isDigitChar (digitChar (d.month / 10)) &&
       isDigitChar (digitChar d.month) && ('-' == '-') &&
       isDigitChar (digitChar (d.day / 10)) && isDigitChar (digitChar d.day)) := rfl
  rw [h]
  simp [isDigitChar_digitChar]

theorem apiDateStrings_finishForecast (mt : String) (ts : List (Nat × ℚ))
    (out : Option (List ForecastRow) × String) :
    ∀ s ∈ apiDateStrings (finishForecast mt ts out), dateStringOk s = true := by
  intro s hs
  rcases out with ⟨fopt, st⟩
  rcases fopt with _ | fdf
  · simp [finishForecast, apiDateStrings] at hs
  · simp only [finishForecast] at hs
    split at hs
    · simp [apiDateStrings] at hs
    · simp only [apiDateStrings] at hs
      rcases List.mem_append.mp hs with h | h
      · simp only [historyIndexJson] at h
        obtain ⟨p, _, rfl⟩ := List.mem_map.mp h
        exact dateStringOk_formatDate _
      · obtain ⟨q, hq, rfl⟩ := List.mem_map.mp h
        simp only [forecastRecords] at hq
        obtain ⟨r, _, rfl⟩ := List.mem_map.mp hq
        exact dateStringOk_formatDate _

/-- C9: every date carried by a successful forecast response - each entry of
`history.index` and the `Date` field of each forecast record - is a
calendar string of shape "YYYY-MM-DD", never a numeric timestamp. -/
theorem C9_response_dates_are_calendar_strings
    (sf xf : ForecastStrategy) (df : Option (List Row))
    (status model_type category region : String) (steps : Nat) :
    ∀ s ∈ apiDateStrings
        (sales_forecast_endpoint sf xf df status model_type category region steps).2,
      dateStringOk s = true := by
  intro s hs
  rcases df with _ | rows
  · simp [sales_forecast_endpoint, apiDateStrings] at hs
  · simp only [sales_forecast_endpoint] at hs
    split at hs
    · simp [apiDateStrings] at hs
    · split at hs
      · exact apiDateStrings_finishForecast _ _ _ s hs
      · split at hs
        · exact apiDateStrings_finishForecast _ _ _ s hs
        · simp [apiDateStrings] at hs

/-- C9 witness: a concrete successful response containing the history date
string "2014-01-31". -/
theorem C9_witness :
    "2014-01-31" ∈ apiDateStrings
        (sales_forecast_endpoint constForecastStrategy constForecastStrategy
          (some [sampleRow]) "Success" "sarima" "All Categories" "All Regions" 12).2 ∧
    dateStringOk "2014-01-31" = true :=
  ⟨by decide,
   C9_response_dates_are_calendar_strings constForecastStrategy constForecastStrategy
     (some [sampleRow]) "Success" "sarima" "All Categories" "All Regions" 12
     "2014-01-31" (by decide)⟩

/-- C1: on any table and selection whose filtered row set is non-empty
(equivalently, whose transaction-month list has a minimum `lo` and maximum
`hi`), `aggregate_sales` reports data and returns the series with exactly
one entry per month from `lo` to `hi` - months strictly increasing with no
gaps - whose value is the sum of the filtered sales of that month (so 0 for
a month with no transactions); `lo` and `hi` are attained by actual
transactions and bound every transaction month, so the first entry's month
contains at least one actual transaction. -/
theorem C1_aggregate_monthly_series
    (df : List Row) (category region : String) (lo hi : Nat)
    (h1 : (monthsOf (filterRows df category region)).min? = some lo)
    (h2 : (monthsOf (filterRows df category region)).max? = some hi) :
    (aggregate_sales (some df) category region).2 = true ∧
    (aggregate_sales (some df) category region).1.length = hi - lo + 1 ∧
    (∀ i, i < hi - lo + 1 →
      (aggregate_sales (some df) category region).1[i]? =
        some (lo + i, sumSalesInMonth (filterRows df category region) (lo + i))) ∧
    (∃ r ∈ filterRows df category region, monthIndex r.order_date = lo) ∧
    (∃ r ∈ filterRows df category region, monthIndex r.order_date = hi) ∧
    (∀ r ∈ filterRows df category region,
      lo ≤ monthIndex r.order_date ∧ monthIndex r.order_date ≤ hi) ∧
    (∀ m : Nat, (∀ r ∈ filterRows df category region, monthIndex r.order_date ≠ m) →
      sumSalesInMonth (filterRows df category region) m = 0) := by
  set F := filterRows df category region with hF
  obtain ⟨hlomem, hlole⟩ := List.min?_eq_some_iff'.mp h1
  obtain ⟨hhimem, hhile⟩ := List.max?_eq_some_iff'.mp h2
  have hFne : F ≠ [] := by
    intro hnil
    rw [hnil] at hlomem
    simp [monthsOf] at hlomem
  have hie : F.isEmpty = false := by
    cases hf : F
    · exact absurd hf hFne
    · rfl
  have hagg : aggregate_sales (some df) category region =
      (sliceFromMin (resampleME F), true) := by
    simp only [aggregate_sales, ← hF, hie, Bool.false_eq_true, if_false]
  have hres : resampleME F =
      (List.range (hi - lo + 1)).map (fun i => (lo + i, sumSalesInMonth F (lo + i))) := by
    unfold resampleME
    rw [h1, h2]
  have hagg1 : (aggregate_sales (some df) category region).1 =
      (List.range (hi - lo + 1)).map (fun i => (lo + i, sumSalesInMonth F (lo + i))) := by
    rw [hagg]
    simp only
    rw [sliceFromMin_resampleME F, hres]
  have hagg2 : (aggregate_sales (some df) category region).2 = true := by
    rw [hagg]
  refine ⟨hagg2, ?_, ?_, ?_, ?_, ?_, ?_⟩
  · rw [hagg1]
    simp
  · intro i hi'
    rw [hagg1, List.getElem?_map, List.getElem?_range hi']
    rfl
  · simp only [monthsOf] at hlomem
    obtain ⟨r, hr, hre⟩ := List.mem_map.mp hlomem
    exact ⟨r, hr, hre⟩
  · simp only [monthsOf] at hhimem
    obtain ⟨r, hr, hre⟩ := List.mem_map.mp hhimem
    exact ⟨r, hr, hre⟩
  · intro r hr
    have hm : monthIndex r.order_date ∈ monthsOf F :=
      List.mem_map.mpr ⟨r, hr, rfl⟩
    exact ⟨hlole _ hm, hhile _ hm⟩
  · intro m hmono
    have hfil : F.filter (fun r => monthIndex r.order_date == m) = [] := by
      rw [List.filter_eq_nil_iff]
      intro r hr
      simp only [beq_iff_eq]
      exact fun he => hmono r hr he
    unfold sumSalesInMonth
    rw [hfil]
    rfl

/-- C1 witness: two rows in January and March 2014; the series spans the
three months 24168..24170. -/
theorem C1_witness :
    (monthsOf (filterRows [sampleRow, sampleRow2] "Furniture" "West")).min? =
      some 24168 ∧
    (monthsOf (filterRows [sampleRow, sampleRow2] "Furniture" "West")).max? =
      some 24170 ∧
    ((aggregate_sales (some [sampleRow, sampleRow2]) "Furniture" "West").2 = true ∧
    (aggregate_sales (some [sampleRow, sampleRow2]) "Furniture" "West").1.length =
      24170 - 24168 + 1 ∧
    (∀ i, i < 24170 - 24168 + 1 →
      (aggregate_sales (some [sampleRow, sampleRow2]) "Furniture" "West").1[i]? =
        some (24168 + i,
          sumSalesInMonth (filterRows [sampleRow, sampleRow2] "Furniture" "West")
            (24168 + i))) ∧
    (∃ r ∈ filterRows [sampleRow, sampleRow2] "Furniture" "West",
      monthIndex r.order_date = 24168) ∧
    (∃ r ∈ filterRows [sampleRow, sampleRow2] "Furniture" "West",
      monthIndex r.order_date = 24170) ∧
    (∀ r ∈ filterRows [sampleRow, sampleRow2] "Furniture" "West",
      24168 ≤ monthIndex r.order_date ∧ monthIndex r.order_date ≤ 24170) ∧
    (∀ m : Nat,
      (∀ r ∈ filterRows [sampleRow, sampleRow2] "Furniture" "West",
        monthIndex r.order_date ≠ m) →
      sumSalesInMonth (filterRows [sampleRow, sampleRow2] "Furniture" "West") m = 0)) :=
  ⟨by decide, by decide,
   C1_aggregate_monthly_series [sampleRow, sampleRow2] "Furniture" "West"
     24168 24170 (by decide) (by decide)⟩
